import Mathlib

/-!
Verification development for the squareapp repository: a shallow embedding in
Lean 4 of the geospatial product-search pipeline (`src/app/api/search/route.ts`),
the suggestion generator and distance function (`src/lib/utils.ts`), and the
product-detail lookup (`src/app/api/products/[id]/route.ts`).

Modelling conventions:
* JavaScript numbers are modelled exactly: request parameters (which the code
  obtains from decimal query strings via JS coercions) as rationals `ℚ`, and
  the haversine-distance arithmetic (which uses `Math.sin`/`Math.cos`/...)
  over the reals `ℝ`.  Floating-point rounding error is out of scope.
* JavaScript strings are modelled as Lean `String`s, operated on through their
  character lists; `toLowerCase` is modelled by ASCII `Char.toLower` and
  `localeCompare` by code-point lexicographic comparison.
* `URLSearchParams.get` returns a string or `null`, never `undefined`; an
  absent query parameter is therefore `none` standing for `null`.
* The Prisma catalog store (its `schema.prisma` and `lib/database.ts` are not
  part of the sources) is modelled from the spec, §3 data model and §4.2
  steps 1–2: `findMany` returns the rows matching the where-clause in store
  order, truncated by `take`; `findUnique` returns the row with the given id,
  if it exists; `create` either succeeds or throws.
-/

namespace Squareapp

/-! ### JavaScript string primitives -/

/-- `String.prototype.toLowerCase`, restricted to its ASCII behaviour
(the repository's vocabulary and catalog text are ASCII). -/
def jsToLowerCase (s : String) : String :=
  ⟨s.data.map Char.toLower⟩

/-- `needle` occurs as a prefix of `hay` (helper for substring search). -/
def listIsPrefix : List Char → List Char → Bool
  | [], _ => true
  | _ :: _, [] => false
  | a :: as, b :: bs => a == b && listIsPrefix as bs

/-- `needle` occurs as a contiguous sublist of `hay` (helper for `includes`). -/
def listContains (needle hay : List Char) : Bool :=
  match hay with
  | [] => needle.isEmpty
  | _ :: t => listIsPrefix needle hay || listContains needle t

/-- `hay.includes(needle)` on JS strings. -/
def jsIncludes (hay needle : String) : Bool :=
  listContains needle.data hay.data

/-- The case-insensitive substring test used both by the Prisma
`contains / mode: 'insensitive'` where-clauses and by the suggestion filter:
`hay.toLowerCase().includes(needle.toLowerCase())`. -/
def ciContains (hay needle : String) : Bool :=
  jsIncludes (jsToLowerCase hay) (jsToLowerCase needle)

/-- Prisma `contains` on a nullable text column: a `NULL` column never
matches. -/
def ciContainsOpt (hay : Option String) (needle : String) : Bool :=
  match hay with
  | none => false
  | some s => ciContains s needle

/-- Code-point lexicographic `≤` on character lists, our model of
`a.localeCompare(b) <= 0` (the default-locale collation is modelled as
code-point order; all catalog names in scope are ASCII). -/
def lexLE : List Char → List Char → Bool
  | [], _ => true
  | _ :: _, [] => false
  | a :: as, b :: bs =>
    if a < b then true
    else if b < a then false
    else lexLE as bs

/-! ### JavaScript numeric coercions (the exact `z.coerce` behaviour) -/

/-- Digits-to-value accumulator for decimal strings. -/
def natOfDigits (l : List Char) : ℕ :=
  l.foldl (fun a c => 10 * a + (c.toNat - 48)) 0

/-- All characters are ASCII digits. -/
def allDigits (l : List Char) : Bool :=
  l.all Char.isDigit

/-- The unsigned decimal-literal fragment of the JS `Number(string)` grammar:
`digits`, `digits.digits`, `digits.`, `.digits`.  Returns `none` for NaN.
(Exponent, hex and `Infinity` forms also exist in JS; they are outside the
fragment exercised by this API and are mapped to NaN here.) -/
def jsUnsignedDecimal (l : List Char) : Option ℚ :=
  match l.splitOn '.' with
  | [i] => if i ≠ [] ∧ allDigits i then some (natOfDigits i : ℚ) else none
  | [i, f] =>
    if (i ≠ [] ∨ f ≠ []) ∧ allDigits i ∧ allDigits f then
      some ((natOfDigits i : ℚ) + (natOfDigits f : ℚ) / (10 : ℚ) ^ f.length)
    else none
  | _ => none

/-- `Number(string)`: trims whitespace, maps the empty string to `0`, parses
an optionally signed decimal literal, and yields `none` for NaN. -/
def jsNumberOfString (s : String) : Option ℚ :=
  let t := ((s.data.dropWhile Char.isWhitespace).reverse.dropWhile
    Char.isWhitespace).reverse
  if t.isEmpty then some 0
  else
    match t with
    | '-' :: rest => (jsUnsignedDecimal rest).map (fun q => -q)
    | '+' :: rest => jsUnsignedDecimal rest
    | _ => jsUnsignedDecimal t

/-- `Number(value)` on a `string | null` query-parameter value:
`Number(null) = 0`.  This is what `z.coerce.number()` applies. -/
def jsNumberOfParam : Option String → Option ℚ
  | none => some 0
  | some s => jsNumberOfString s

/-- `Boolean(value)` on a `string | null` value: `Boolean(null) = false`,
`Boolean("") = false`, every non-empty string (including `"false"`) is
truthy.  This is what `z.coerce.boolean()` applies. -/
def jsBooleanOfParam : Option String → Bool
  | none => false
  | some s => !s.data.isEmpty

/-- `Math.round`: round half towards positive infinity. -/
noncomputable def jsRound (x : ℝ) : ℤ :=
  ⌊x + 1 / 2⌋

/-- `Math.round(d * 10) / 10` — the one-decimal rounding applied to every
reported distance. -/
noncomputable def jsRoundTo1 (d : ℝ) : ℝ :=
  ((jsRound (d * 10) : ℤ) : ℝ) / 10

/-- Truncation of a (non-negative) JS number to a list index / record count,
as applied by `Array.prototype.slice` and the Prisma `take` argument. -/
def jsTrunc (q : ℚ) : ℕ :=
  ⌊q⌋.toNat

/-! ### The `searchSchema` zod validation (`src/app/api/search/route.ts:6-14`)

The route builds `params` from `searchParams.get(...)`, so every field is a
`string | null` (`Option String` here, `none` = `null`); `undefined` never
occurs.  Consequently:
* `z.coerce.number()` applies `Number(null) = 0` to an absent field — the
  `.optional()` and `.default(...)` wrappers only fire on `undefined` and are
  dead for these inputs;
* `z.string().optional()` rejects `null` (`.optional()` accepts only
  `undefined`);
* `z.coerce.boolean()` applies `Boolean(null) = false`, so `.default(true)`
  is likewise dead.
-/

/-- The raw query parameters handed to `searchSchema.parse`
(`route.ts:36-44`); each is the result of `searchParams.get`. -/
structure RawSearchParams where
  query : Option String
  lat : Option String
  lng : Option String
  radius : Option String
  limit : Option String
  category : Option String
  inStock : Option String
deriving DecidableEq

/-- The output type of `searchSchema.parse` (shape of `validatedParams`). -/
structure SearchParams where
  query : String
  lat : Option ℚ
  lng : Option ℚ
  radius : ℚ
  limit : ℚ
  category : Option String
  inStock : Bool
deriving DecidableEq

/-- `z.coerce.number().min(lo).max(hi)` on a `string | null` input:
coerce with `Number`, fail on NaN or an out-of-range value. -/
def zodCoerceNumber (raw : Option String) (lo hi : ℚ) : Option ℚ :=
  match jsNumberOfParam raw with
  | none => none
  | some n => if lo ≤ n ∧ n ≤ hi then some n else none

/-- `searchSchema.parse` on the route's `params` object.  Zod reports all
field issues together; only success/failure matters here, so the model
returns `Option` (`none` = `ZodError`). -/
def searchSchemaParse (p : RawSearchParams) : Option SearchParams :=
  match p.query with
  | none => none
  | some q =>
    if 1 ≤ q.data.length ∧ q.data.length ≤ 100 then
      match zodCoerceNumber p.lat (-90) 90, zodCoerceNumber p.lng (-180) 180,
          zodCoerceNumber p.radius 1 50, zodCoerceNumber p.limit 1 100 with
      | some la, some ln, some r, some li =>
        match p.category with
        | none => none
        | some c =>
          some { query := q, lat := some la, lng := some ln, radius := r,
                 limit := li, category := some c,
                 inStock := jsBooleanOfParam p.inStock }
      | _, _, _, _ => none
    else none

/-- The fixed fallback coordinate (`src/lib/utils.ts:91-94`). -/
structure Coords where
  latitude : ℚ
  longitude : ℚ

/-- Default Byron Bay coordinates. -/
def BYRON_BAY_COORDS : Coords :=
  { latitude := -28.6434, longitude := 153.6148 }

/-- `validatedParams.lat ?? BYRON_BAY_COORDS.latitude` (`route.ts:49`). -/
def resolvedLat (sp : SearchParams) : ℚ :=
  sp.lat.getD BYRON_BAY_COORDS.latitude

/-- `validatedParams.lng ?? BYRON_BAY_COORDS.longitude` (`route.ts:50`). -/
def resolvedLng (sp : SearchParams) : ℚ :=
  sp.lng.getD BYRON_BAY_COORDS.longitude

/-! ### The distance function (`src/lib/utils.ts:8-31`) -/

/-- Degrees to radians (`toRadians`). -/
noncomputable def toRadians (degrees : ℝ) : ℝ :=
  degrees * (Real.pi / 180)

/-- `Math.atan2 y x` over the reals (total piecewise definition; the NaN
inputs JS also handles cannot arise from in-range coordinates). -/
noncomputable def jsAtan2 (y x : ℝ) : ℝ :=
  if 0 < x then Real.arctan (y / x)
  else if x < 0 then
    (if 0 ≤ y then Real.arctan (y / x) + Real.pi
     else Real.arctan (y / x) - Real.pi)
  else
    (if 0 < y then Real.pi / 2
     else if y < 0 then -(Real.pi / 2)
     else 0)

/-- The intermediate `a` of the haversine formula:
`sin²(dLat/2) + cos(lat1)·cos(lat2)·sin²(dLng/2)`. -/
noncomputable def haversineA (lat1 lng1 lat2 lng2 : ℝ) : ℝ :=
  Real.sin (toRadians (lat2 - lat1) / 2) * Real.sin (toRadians (lat2 - lat1) / 2) +
    Real.cos (toRadians lat1) * Real.cos (toRadians lat2) *
      Real.sin (toRadians (lng2 - lng1) / 2) * Real.sin (toRadians (lng2 - lng1) / 2)

/-- `calculateDistance`: great-circle distance in km by the haversine
formula with Earth radius 6371 km (`c = 2·atan2(√a, √(1−a))`, result `R·c`). -/
noncomputable def calculateDistance (lat1 lng1 lat2 lng2 : ℝ) : ℝ :=
  6371 * (2 * jsAtan2 (Real.sqrt (haversineA lat1 lng1 lat2 lng2))
    (Real.sqrt (1 - haversineA lat1 lng1 lat2 lng2)))

/-! ### Catalog store model

Modelled from the spec: the Prisma client and `schema.prisma` are not among
the sources; §3 of the spec gives the data model (Merchant with coordinate
and active flag; Product with name/description/category, active flag, owning
Merchant, Variations; at most one current Inventory row per variation) and
§4.2 steps 1–2 give the retrieval contract used by the route. -/

/-- A Merchant row (the fields the routes read). -/
structure DbMerchant where
  id : String
  name : String
  latitude : ℚ
  longitude : ℚ
  isActive : Bool
deriving DecidableEq

/-- An Inventory row attached to a variation (`quantity`, `lastSyncAt`). -/
structure DbInventory where
  quantity : ℕ
  lastSyncAt : String
deriving DecidableEq

/-- A ProductVariation row with its included `inventory` relation (a list;
the route reads `variation.inventory[0]`). -/
structure DbVariation where
  id : String
  name : String
  price : ℚ
  attributes : List (String × String)
  inventory : List DbInventory
deriving DecidableEq

/-- A Product row with its included `merchant` and `variations` relations. -/
structure DbProduct where
  id : String
  name : String
  description : Option String
  category : Option String
  imageUrl : Option String
  basePrice : Option ℚ
  isActive : Bool
  merchant : DbMerchant
  variations : List DbVariation
deriving DecidableEq

/-- The `whereClause` built at `route.ts:52-90`: active product of an active
merchant, an OR of case-insensitive `contains` over name/description/category
(the query is non-empty after validation, so the OR is always added), and —
only when `validatedParams.category` is truthy, i.e. a non-empty string —
an additional case-insensitive `contains` on the category column. -/
def whereMatch (query : String) (category : Option String) (p : DbProduct) : Bool :=
  p.isActive && p.merchant.isActive &&
    (ciContains p.name query || ciContainsOpt p.description query ||
      ciContainsOpt p.category query) &&
    (match category with
     | none => true
     | some c => if c.data.isEmpty then true else ciContainsOpt p.category c)

/-- Modelled from the spec: `prisma.product.findMany({ where, take })`
returns the rows matching the where-clause, in store order, truncated to
`take` rows (`route.ts:93-104`, spec §4.2 step 2). -/
def dbFindMany (db : List DbProduct) (query : String) (category : Option String)
    (takeN : ℕ) : List DbProduct :=
  (db.filter (whereMatch query category)).take takeN

/-- `totalStock` of a candidate: the `reduce` at `route.ts:122-125`,
`sum + (variation.inventory[0]?.quantity || 0)` over the variations. -/
def dbTotalStock (p : DbProduct) : ℕ :=
  p.variations.foldl
    (fun sum v => sum + ((v.inventory.head?.map DbInventory.quantity).getD 0)) 0

/-! ### Response shaping (`route.ts:132-159`, `lib/types.ts`) -/

/-- `x || undefined` on a nullable string field: `null` and `""` become
`undefined`. -/
def jsOrUndefinedStr : Option String → Option String
  | none => none
  | some s => if s.data.isEmpty then none else some s

/-- `x || undefined` on a nullable numeric field: `null` and `0` become
`undefined`. -/
def jsOrUndefinedNum : Option ℚ → Option ℚ
  | none => none
  | some q => if q = 0 then none else some q

/-- The `merchant` block of a `ProductWithMerchant` (`distance` is optional
because the product-detail route may omit it). -/
structure ResultMerchant where
  id : String
  name : String
  latitude : ℚ
  longitude : ℚ
  distance : Option ℝ

/-- A variation in the response, with its inventory quantity.  `lastUpdated`
is `none` when the source falls back to the wall clock
(`new Date().toISOString()`), which is not modelled. -/
structure ResultVariation where
  id : String
  name : String
  price : ℚ
  attributes : List (String × String)
  quantity : ℕ
  lastUpdated : Option String

/-- A `ProductWithMerchant` as returned by both routes. -/
structure ResultProduct where
  id : String
  name : String
  description : Option String
  category : Option String
  imageUrl : Option String
  basePrice : Option ℚ
  merchant : ResultMerchant
  variations : List ResultVariation
  totalStock : ℕ

/-- The `transformedProduct` of the search route (`route.ts:133-159`):
`distance` and `totalStock` are the locals computed just above it. -/
noncomputable def transformProduct (p : DbProduct) (distance : ℝ)
    (totalStock : ℕ) : ResultProduct :=
  { id := p.id
    name := p.name
    description := jsOrUndefinedStr p.description
    category := jsOrUndefinedStr p.category
    imageUrl := jsOrUndefinedStr p.imageUrl
    basePrice := jsOrUndefinedNum p.basePrice
    merchant :=
      { id := p.merchant.id
        name := p.merchant.name
        latitude := p.merchant.latitude
        longitude := p.merchant.longitude
        distance := some (jsRoundTo1 distance) }
    variations := p.variations.map (fun v =>
      { id := v.id
        name := v.name
        price := v.price
        attributes := v.attributes
        quantity := (v.inventory.head?.map DbInventory.quantity).getD 0
        lastUpdated := v.inventory.head?.map DbInventory.lastSyncAt })
    totalStock := totalStock }

/-- An element of `productsWithDistance` before the final projection:
`{ product: transformedProduct, distance }` (`route.ts:161`). -/
structure RankedProduct where
  product : ResultProduct
  distance : ℝ

/-- The body of the `.map` at `route.ts:108-162` (returning `null` models the
two `return null` discards: outside the radius, or out of stock while
`inStock` is required). -/
noncomputable def searchStep (userLat userLng radius : ℚ) (inStock : Bool)
    (p : DbProduct) : Option RankedProduct :=
  if (radius : ℝ) <
      calculateDistance userLat userLng p.merchant.latitude p.merchant.longitude
  then none
  else if inStock && (dbTotalStock p == 0) then none
  else some
    { product := transformProduct p
        (calculateDistance userLat userLng p.merchant.latitude p.merchant.longitude)
        (dbTotalStock p)
      distance :=
        calculateDistance userLat userLng p.merchant.latitude p.merchant.longitude }

/-- The sort comparator at `route.ts:164-173` as a boolean "a precedes b"
relation (`comparator(a,b) ≤ 0`): distance ascending, then `totalStock`
descending, then name ascending by `localeCompare`. -/
noncomputable def searchLE (a b : RankedProduct) : Bool :=
  if a.distance = b.distance then
    (if a.product.totalStock = b.product.totalStock then
      lexLE a.product.name.data b.product.name.data
    else decide (b.product.totalStock < a.product.totalStock))
  else decide (a.distance < b.distance)

/-- `productsWithDistance` just before the final `.map(item => item.product)`:
retrieve up to `limit * 2` candidates, apply the distance/stock filter, sort,
and `slice(0, limit)` (`route.ts:93-174`). -/
noncomputable def searchRanked (db : List DbProduct) (sp : SearchParams) :
    List RankedProduct :=
  ((((dbFindMany db sp.query sp.category (jsTrunc (sp.limit * 2))).filterMap
      (searchStep (resolvedLat sp) (resolvedLng sp) sp.radius sp.inStock)).mergeSort
      searchLE).take (jsTrunc sp.limit))

/-- The final `productsWithDistance` list of products (`route.ts:175`). -/
noncomputable def searchProducts (db : List DbProduct) (sp : SearchParams) :
    List ResultProduct :=
  (searchRanked db sp).map RankedProduct.product

/-! ### The search route handler (`route.ts:16-241`) -/

/-- `pagination` block (`route.ts:194-199`). -/
structure SearchPagination where
  total : ℕ
  page : ℕ
  limit : ℚ
  hasMore : Bool

/-- `searchMeta` block (`route.ts:200-208`); `executionTime` (wall clock) is
not modelled. -/
structure SearchMeta where
  query : String
  location : ℚ × ℚ
  radius : ℚ

/-- The `data` payload of a successful search response (`route.ts:190-210`). -/
structure SearchData where
  products : List ResultProduct
  pagination : SearchPagination
  searchMeta : SearchMeta

/-- The three response shapes of the search route: 400 `INVALID_PARAMS`
(ZodError), 200 success, 500 `SEARCH_ERROR` (any other exception caught at
`route.ts:213-240`). -/
inductive SearchOutcome where
  | invalidParams
  | success (data : SearchData)
  | searchError

/-- The GET handler.  `logOk` models whether the awaited
`prisma.search.create` analytics write (`route.ts:178-186`) resolves; it is
executed inside the `try` block after `productsWithDistance` has been
computed, so a rejected write jumps to the generic catch branch and produces
the `SEARCH_ERROR` response instead of the already-computed success payload. -/
noncomputable def searchGET (db : List DbProduct) (raw : RawSearchParams)
    (logOk : Bool) : SearchOutcome :=
  match searchSchemaParse raw with
  | none => .invalidParams
  | some sp =>
    if logOk then
      .success
        { products := searchProducts db sp
          pagination :=
            { total := (searchProducts db sp).length
              page := 1
              limit := sp.limit
              hasMore := false }
          searchMeta :=
            { query := sp.query
              location := (resolvedLat sp, resolvedLng sp)
              radius := sp.radius } }
    else .searchError

/-! ### Suggestion generator (`src/lib/utils.ts:62-83`) and its route -/

/-- The fixed `suggestions` vocabulary inside `generateSearchSuggestions`. -/
def suggestionsVocabulary : List String :=
  ["hoodie", "t-shirt", "jacket", "jeans", "sneakers", "dress", "shirt",
   "sweater", "pants", "shoes"]

/-- `generateSearchSuggestions(query)`: the first five vocabulary entries for
a falsy (empty) query, otherwise the case-insensitive matches truncated to
five (`filtered.slice(0, 5)`). -/
def generateSearchSuggestions (query : String) : List String :=
  if query.data.isEmpty then suggestionsVocabulary.take 5
  else (suggestionsVocabulary.filter (fun s => ciContains s query)).take 5

/-- The suggestions route body after validation
(`generateSearchSuggestions(query).slice(0, limit)`); `limit` is the
validated bound, an integer in 1–10. -/
def suggestionsFor (query : String) (limit : ℕ) : List String :=
  (generateSearchSuggestions query).take limit

/-! ### Product detail route (`src/app/api/products/[id]/route.ts`) -/

/-- The two data-bearing outcomes of the detail route: 404
`PRODUCT_NOT_FOUND` when `findUnique` yields `null`, otherwise the
transformed product.  (The 500 `PRODUCT_ERROR` branch fires only on a store
failure, which the pure model does not produce.) -/
inductive DetailOutcome where
  | notFound
  | found (product : ResultProduct)

/-- The detail route's transformation (`[id]/route.ts:42-86`).  `lat`/`lng`
arrive as already-parsed optional coordinates (`none` models an absent or
falsy-empty parameter, mirroring the `if (lat && lng)` guard).  Note the
`distance ? Math.round(distance * 10) / 10 : undefined` at line 73: a
computed distance of exactly `0` is falsy, so the field is omitted. -/
noncomputable def detailTransform (lat lng : Option ℚ) (p : DbProduct) :
    ResultProduct :=
  { id := p.id
    name := p.name
    description := jsOrUndefinedStr p.description
    category := jsOrUndefinedStr p.category
    imageUrl := jsOrUndefinedStr p.imageUrl
    basePrice := jsOrUndefinedNum p.basePrice
    merchant :=
      { id := p.merchant.id
        name := p.merchant.name
        latitude := p.merchant.latitude
        longitude := p.merchant.longitude
        distance :=
          match lat, lng with
          | some la, some ln =>
            if calculateDistance la ln p.merchant.latitude p.merchant.longitude
                = 0 then none
            else some (jsRoundTo1
              (calculateDistance la ln p.merchant.latitude p.merchant.longitude))
          | _, _ => none }
    variations := p.variations.map (fun v =>
      { id := v.id
        name := v.name
        price := v.price
        attributes := v.attributes
        quantity := (v.inventory.head?.map DbInventory.quantity).getD 0
        lastUpdated := v.inventory.head?.map DbInventory.lastSyncAt })
    totalStock := dbTotalStock p }

/-- The detail GET handler: `prisma.product.findUnique({ where: { id } })`
(modelled from the spec as lookup of the row with that id) with **no**
active-flag condition, then 404 or the transformed product. -/
noncomputable def detailGET (db : List DbProduct) (productId : String)
    (lat lng : Option ℚ) : DetailOutcome :=
  match db.find? (fun p => p.id == productId) with
  | none => .notFound
  | some p => .found (detailTransform lat lng p)

/-! ### Concrete request/catalog fixtures used by the closed theorems -/

/-- A fully supplied request: every parameter present as a query string. -/
def rawFull : RawSearchParams :=
  ⟨some "hoodie", some "0", some "0", some "10", some "20", some "", some "true"⟩

/-- The validated parameters `rawFull` parses to. -/
def spFull : SearchParams :=
  { query := "hoodie", lat := some 0, lng := some 0, radius := 10, limit := 20,
    category := some "", inStock := true }

/-- A request with `lat`/`lng` omitted but every other parameter present. -/
def rawNoCoords : RawSearchParams :=
  ⟨some "hoodie", none, none, some "10", some "20", some "", some "true"⟩

/-- A request supplying only a valid `query`, omitting `radius`, `limit`,
`category` and `inStock`. -/
def rawOnlyQuery : RawSearchParams :=
  ⟨some "hoodie", none, none, none, none, none, none⟩

/-! ### Helper lemmas -/

/-- The empty catalog produces an empty product list. -/
theorem searchProducts_nil (sp : SearchParams) : searchProducts [] sp = [] := by
  simp [searchProducts, searchRanked, dbFindMany]

/-- The haversine intermediate `a` is symmetric in its two coordinates. -/
theorem haversineA_symm (lat1 lng1 lat2 lng2 : ℝ) :
    haversineA lat1 lng1 lat2 lng2 = haversineA lat2 lng2 lat1 lng1 := by
  unfold haversineA toRadians
  have h1 : (lat1 - lat2) * (Real.pi / 180) / 2
      = -((lat2 - lat1) * (Real.pi / 180) / 2) := by ring
  have h2 : (lng1 - lng2) * (Real.pi / 180) / 2
      = -((lng2 - lng1) * (Real.pi / 180) / 2) := by ring
  rw [h1, h2, Real.sin_neg, Real.sin_neg]
  ring

/-! ### Claim theorems -/

/-- Claim C9: the distance function is symmetric — for all coordinate pairs
A and B, `calculateDistance A B = calculateDistance B A`. -/
theorem claim_C9_distance_symm (lat1 lng1 lat2 lng2 : ℝ) :
    calculateDistance lat1 lng1 lat2 lng2 = calculateDistance lat2 lng2 lat1 lng1 := by
  unfold calculateDistance
  rw [haversineA_symm lat1 lng1 lat2 lng2]

/-- Claim C2 (code bug, evaluated at the failing input): with `lat` and `lng`
omitted and validation succeeding, `z.coerce.number()` turns the `null`
parameters into `0`, the `?? BYRON_BAY_COORDS` fallback never fires, and the
resolved coordinate reported in `searchMeta.location` is `(0, 0)`, not the
fixed fallback coordinate `(-28.6434, 153.6148)`. -/
theorem claim_C2_location_is_zero_not_fallback :
    searchSchemaParse rawNoCoords =
      some { query := "hoodie", lat := some 0, lng := some 0, radius := 10,
             limit := 20, category := some "", inStock := true }
    ∧ searchGET [] rawNoCoords true =
      .success
        { products := []
          pagination := { total := 0, page := 1, limit := 20, hasMore := false }
          searchMeta := { query := "hoodie", location := (0, 0), radius := 10 } }
    ∧ ((0 : ℚ), (0 : ℚ)) ≠ (BYRON_BAY_COORDS.latitude, BYRON_BAY_COORDS.longitude) := by
  have hp : searchSchemaParse rawNoCoords =
      some { query := "hoodie", lat := some 0, lng := some 0, radius := 10,
             limit := 20, category := some "", inStock := true } := by decide
  refine ⟨hp, ?_, ?_⟩
  · simp [searchGET, hp, searchProducts_nil, resolvedLat, resolvedLng]
  · simp only [ne_eq, Prod.mk.injEq, not_and]
    intro h
    exfalso
    norm_num [BYRON_BAY_COORDS] at h

/-- Claim C3 (code bug, evaluated at the failing input): a request that
supplies a valid `query` and omits `radius`, `limit`, `category` and
`inStock` does **not** validate with the documented defaults — the `null`
parameters coerce to `0` (failing `min(1)` for radius and limit) and
`z.string().optional()` rejects the `null` category, so the route answers
`INVALID_PARAMS`. -/
theorem claim_C3_omitted_params_rejected :
    searchSchemaParse rawOnlyQuery = none
    ∧ ∀ (db : List DbProduct) (logOk : Bool),
        searchGET db rawOnlyQuery logOk = .invalidParams := by
  have hp : searchSchemaParse rawOnlyQuery = none := by decide
  exact ⟨hp, fun db logOk => by simp [searchGET, hp]⟩

/-- Claim C1 (amended): the analytics write `prisma.search.create` is awaited
inside the `try` block, so when it fails after the results have been
computed, the handler answers with the generic `SEARCH_ERROR` response — the
failure is **not** absorbed. -/
theorem claim_C1_log_failure_yields_error (db : List DbProduct)
    (raw : RawSearchParams) (sp : SearchParams)
    (h : searchSchemaParse raw = some sp) :
    searchGET db raw false = .searchError := by
  simp [searchGET, h]

/-- Witness for claim C1's amended theorem at a concrete request. -/
theorem claim_C1_witness :
    searchSchemaParse rawFull = some spFull
    ∧ searchGET [] rawFull false = .searchError :=
  ⟨by decide, claim_C1_log_failure_yields_error [] rawFull spFull (by decide)⟩

/-- Claim C1 (counterexample): the very same request succeeds when the
analytics write resolves and produces the `SEARCH_ERROR` response when it
rejects, so an analytics-log failure does turn a successful search into an
error response. -/
theorem claim_C1_counterexample :
    searchGET [] rawFull true =
      .success
        { products := []
          pagination := { total := 0, page := 1, limit := 20, hasMore := false }
          searchMeta := { query := "hoodie", location := (0, 0), radius := 10 } }
    ∧ searchGET [] rawFull false = .searchError := by
  have hp : searchSchemaParse rawFull = some spFull := by decide
  constructor
  · simp [searchGET, hp, searchProducts_nil, resolvedLat, resolvedLng, spFull]
  · simp [searchGET, hp]

/-- Claim C7 (counterexample): with an empty partial query and requested
bound 10, the generator's internal `slice(0, 5)` cap returns only the first
five vocabulary entries, not the first ten the contract promises. -/
theorem claim_C7_counterexample :
    suggestionsFor "" 10 ≠ suggestionsVocabulary.take 10
    ∧ (suggestionsFor "" 10).length = 5 := by decide

/-- Claim C7 (amended): for every partial query and bound N in [1,10] the
suggestion endpoint returns at most `min N 5` vocabulary entries — the
generator caps its output at five before the route's `slice(0, limit)` —
each containing the query case-insensitively when it is non-empty, and
exactly the first `min N 5` vocabulary entries when it is empty. -/
theorem claim_C7_amended (q : String) (n : ℕ) (_h1 : 1 ≤ n) (_h2 : n ≤ 10) :
    (suggestionsFor q n).length ≤ n
    ∧ (suggestionsFor q n).length ≤ 5
    ∧ (suggestionsFor q n).Forall (fun s => s ∈ suggestionsVocabulary)
    ∧ (q ≠ "" → (suggestionsFor q n).Forall (fun s => ciContains s q = true))
    ∧ (q = "" → suggestionsFor q n = suggestionsVocabulary.take (min n 5)) := by
  unfold suggestionsFor generateSearchSuggestions
  refine ⟨?_, ?_, ?_, ?_, ?_⟩
  · exact List.length_take_le n _
  · split
    · rw [List.take_take]
      exact le_trans (List.length_take_le _ _) (min_le_right _ _)
    · rw [List.take_take]
      exact le_trans (List.length_take_le _ _) (min_le_right _ _)
  · rw [List.forall_iff_forall_mem]
    intro s hs
    split at hs
    · exact (List.take_sublist _ _).subset ((List.take_sublist _ _).subset hs)
    · have := (List.take_sublist _ _).subset ((List.take_sublist _ _).subset hs)
      exact (List.filter_sublist _).subset this
  · intro hq
    rw [List.forall_iff_forall_mem]
    intro s hs
    have hne : ¬ q.data.isEmpty := by
      cases q with
      | mk data =>
        cases data with
        | nil => exact absurd rfl hq
        | cons c cs => simp
    rw [if_neg (by simpa using hne)] at hs
    have := (List.take_sublist _ _).subset ((List.take_sublist _ _).subset hs)
    exact (List.mem_filter.mp this).2
  · intro hq
    subst hq
    rw [if_pos (by decide), List.take_take]

/-- Witness for claim C7's amended theorem at the concrete input
`("shirt", 7)`. -/
theorem claim_C7_witness :
    ((suggestionsFor "shirt" 7).length ≤ 7
    ∧ (suggestionsFor "shirt" 7).length ≤ 5
    ∧ (suggestionsFor "shirt" 7).Forall (fun s => s ∈ suggestionsVocabulary)
    ∧ ("shirt" ≠ "" →
        (suggestionsFor "shirt" 7).Forall (fun s => ciContains s "shirt" = true))
    ∧ ("shirt" = "" →
        suggestionsFor "shirt" 7 = suggestionsVocabulary.take (min 7 5))) :=
  claim_C7_amended "shirt" 7 (by decide) (by decide)

/-- Claim C10: the product-detail lookup applies no active-flag check — it
answers `PRODUCT_NOT_FOUND` exactly when no product row with the given id
exists, and whenever a row exists (its own or its merchant's `isActive` flag
notwithstanding) it returns the transformed product. -/
theorem claim_C10_no_active_check (db : List DbProduct) (pid : String)
    (lat lng : Option ℚ) :
    (detailGET db pid lat lng = .notFound ↔ db.find? (fun p => p.id == pid) = none)
    ∧ ∀ p, db.find? (fun p => p.id == pid) = some p →
        detailGET db pid lat lng = .found (detailTransform lat lng p) := by
  constructor
  · unfold detailGET
    cases h : db.find? (fun p => p.id == pid) with
    | none => simp
    | some p => simp
  · intro p hp
    simp [detailGET, hp]

/-- A merchant flagged inactive, for the C10 witness. -/
def merchInactive : DbMerchant := ⟨"m1", "Closed Shop", 10, 20, false⟩

/-- An inactive product of an inactive merchant, for the C10 witness. -/
def prodInactive : DbProduct :=
  ⟨"p1", "Relic", none, none, none, none, false, merchInactive, []⟩

/-- Witness for claim C10 at a concrete catalog whose only product — and its
merchant — is inactive: the lookup still returns it. -/
theorem claim_C10_witness :
    [prodInactive].find? (fun p => p.id == "p1") = some prodInactive
    ∧ detailGET [prodInactive] "p1" none none
      = .found (detailTransform none none prodInactive) :=
  ⟨by decide,
   (claim_C10_no_active_check [prodInactive] "p1" none none).2 prodInactive (by decide)⟩

/-- Inversion of the per-candidate step: a candidate that survives carries
the computed distance, lies within the radius, is the transformed product,
and — when `inStock` was required — has non-zero stock. -/
theorem searchStep_some_inv {uLat uLng r : ℚ} {stock : Bool} {p : DbProduct}
    {x : RankedProduct}
    (h : searchStep uLat uLng r stock p = some x) :
    x.distance = calculateDistance uLat uLng p.merchant.latitude p.merchant.longitude
    ∧ x.distance ≤ (r : ℝ)
    ∧ x.product = transformProduct p x.distance (dbTotalStock p)
    ∧ (stock = true → dbTotalStock p ≠ 0) := by
  unfold searchStep at h
  split at h
  · exact absurd h (by simp)
  · rename_i hrad
    split at h
    · exact absurd h (by simp)
    · rename_i hstk
      have hx := Option.some.inj h
      rw [← hx]
      refine ⟨rfl, not_lt.mp hrad, rfl, ?_⟩
      intro hs h0
      rw [hs, h0] at hstk
      simp at hstk

/-- Every ranked result arises from some candidate via the per-candidate
step. -/
theorem mem_searchRanked {db : List DbProduct} {sp : SearchParams}
    {x : RankedProduct} (hx : x ∈ searchRanked db sp) :
    ∃ p, searchStep (resolvedLat sp) (resolvedLng sp) sp.radius sp.inStock p
      = some x := by
  unfold searchRanked at hx
  have hx2 := (List.take_sublist _ _).subset hx
  rw [List.mem_mergeSort] at hx2
  obtain ⟨p, _, he⟩ := List.mem_filterMap.mp hx2
  exact ⟨p, he⟩

/-- Rounding to one decimal place can exceed the unrounded value by at most
`0.05`. -/
theorem jsRoundTo1_le (d : ℝ) : jsRoundTo1 d ≤ d + 1 / 20 := by
  unfold jsRoundTo1 jsRound
  have h := Int.floor_le (d * 10 + 1 / 2)
  linarith

/-- Claim C5: for every search executed with `inStock` true, every returned
product has `totalStock > 0`; moreover a candidate with zero variations has
`totalStock` 0 and is always discarded by the per-candidate step when
`inStock` is true. -/
theorem claim_C5_instock_filter :
    (∀ (db : List DbProduct) (q : String) (la ln : Option ℚ) (r lim : ℚ)
        (cat : Option String),
      (searchProducts db ⟨q, la, ln, r, lim, cat, true⟩).Forall
        (fun pr => 0 < pr.totalStock))
    ∧ (∀ p : DbProduct, dbTotalStock { p with variations := [] } = 0)
    ∧ (∀ (uLat uLng radius : ℚ) (p : DbProduct),
        searchStep uLat uLng radius true { p with variations := [] } = none) := by
  refine ⟨?_, ?_, ?_⟩
  · intro db q la ln r lim cat
    rw [List.forall_iff_forall_mem]
    intro pr hpr
    unfold searchProducts at hpr
    obtain ⟨x, hx, rfl⟩ := List.mem_map.mp hpr
    obtain ⟨p, hp⟩ := mem_searchRanked hx
    have hinv := searchStep_some_inv hp
    have hne := hinv.2.2.2 rfl
    rw [hinv.2.2.1]
    simp only [transformProduct]
    omega
  · intro p
    simp [dbTotalStock]
  · intro uLat uLng radius p
    unfold searchStep
    split
    · rfl
    · rw [if_pos]
      simp [dbTotalStock]

/-- Claim C4 (amended): every ranked result's **unrounded** distance is at
most the requested radius, the reported distance is that value rounded to
one decimal, and the reported value therefore never exceeds the radius by
more than `0.05` km — but, as the counterexample shows, it can exceed the
radius itself. -/
theorem claim_C4_amended (db : List DbProduct) (sp : SearchParams) :
    (searchRanked db sp).Forall (fun x =>
      x.distance ≤ (sp.radius : ℝ)
      ∧ x.product.merchant.distance = some (jsRoundTo1 x.distance)
      ∧ jsRoundTo1 x.distance ≤ (sp.radius : ℝ) + 1 / 20) := by
  rw [List.forall_iff_forall_mem]
  intro x hx
  obtain ⟨p, hp⟩ := mem_searchRanked hx
  have hinv := searchStep_some_inv hp
  refine ⟨hinv.2.1, ?_, ?_⟩
  · rw [hinv.2.2.1]
    simp [transformProduct]
  · have := jsRoundTo1_le x.distance
    have hr := hinv.2.1
    linarith

/-- Totality of the code-point lexicographic comparison. -/
theorem lexLE_total : ∀ a b : List Char, (lexLE a b || lexLE b a) = true := by
  intro a
  induction a with
  | nil => intro b; simp [lexLE]
  | cons x xs ih =>
    intro b
    cases b with
    | nil => simp [lexLE]
    | cons y ys =>
      by_cases h1 : x < y
      · simp [lexLE, h1]
      · by_cases h2 : y < x
        · simp [lexLE, h1, h2]
        · simpa [lexLE, h1, h2] using ih ys

/-- Transitivity of the code-point lexicographic comparison. -/
theorem lexLE_trans : ∀ a b c : List Char,
    lexLE a b = true → lexLE b c = true → lexLE a c = true := by
  intro a
  induction a with
  | nil => intro b c _ _; simp [lexLE]
  | cons x xs ih =>
    intro b c hab hbc
    cases b with
    | nil => simp [lexLE] at hab
    | cons y ys =>
      cases c with
      | nil => simp [lexLE] at hbc
      | cons z zs =>
        by_cases hxy : x < y
        · by_cases hyz : y < z
          · simp [lexLE, lt_trans hxy hyz]
          · by_cases hzy : z < y
            · simp [lexLE, hyz, hzy] at hbc
            · have hyz_eq : y = z := le_antisymm (not_lt.mp hzy) (not_lt.mp hyz)
              subst hyz_eq
              simp [lexLE, hxy]
        · by_cases hyx : y < x
          · simp [lexLE, hxy, hyx] at hab
          · have hxy_eq : x = y := le_antisymm (not_lt.mp hyx) (not_lt.mp hxy)
            subst hxy_eq
            simp only [lexLE, lt_irrefl, if_false] at hab ⊢
            by_cases hxz : x < z
            · simp [hxz]
            · by_cases hzx : z < x
              · simp [lexLE, hxz, hzx] at hbc
              · have hxz_eq : x = z := le_antisymm (not_lt.mp hzx) (not_lt.mp hxz)
                subst hxz_eq
                simp only [lexLE, lt_irrefl, if_false] at hbc ⊢
                exact ih ys zs hab hbc

/-- The sort comparator is total, as `Array.prototype.sort` requires. -/
theorem searchLE_total (a b : RankedProduct) : (searchLE a b || searchLE b a) = true := by
  unfold searchLE
  by_cases hd : a.distance = b.distance
  · rw [if_pos hd, if_pos hd.symm]
    by_cases hs : a.product.totalStock = b.product.totalStock
    · rw [if_pos hs, if_pos hs.symm]
      exact lexLE_total _ _
    · have hs' : ¬ b.product.totalStock = a.product.totalStock := fun h => hs h.symm
      rw [if_neg hs, if_neg hs']
      simp only [Bool.or_eq_true, decide_eq_true_eq]
      omega
  · have hd' : ¬ b.distance = a.distance := fun h => hd h.symm
    rw [if_neg hd, if_neg hd']
    simp only [Bool.or_eq_true, decide_eq_true_eq]
    exact lt_or_gt_of_ne hd

/-- The sort comparator is transitive, as `Array.prototype.sort` requires. -/
theorem searchLE_trans (a b c : RankedProduct)
    (h1 : searchLE a b = true) (h2 : searchLE b c = true) :
    searchLE a c = true := by
  unfold searchLE at h1 h2 ⊢
  by_cases hdab : a.distance = b.distance
  · by_cases hdbc : b.distance = c.distance
    · have hdac : a.distance = c.distance := hdab.trans hdbc
      rw [if_pos hdab] at h1
      rw [if_pos hdbc] at h2
      rw [if_pos hdac]
      by_cases hsab : a.product.totalStock = b.product.totalStock
      · by_cases hsbc : b.product.totalStock = c.product.totalStock
        · rw [if_pos hsab] at h1
          rw [if_pos hsbc] at h2
          rw [if_pos (hsab.trans hsbc)]
          exact lexLE_trans _ _ _ h1 h2
        · have h2' : c.product.totalStock < b.product.totalStock :=
            of_decide_eq_true (by rwa [if_neg hsbc] at h2)
          rw [if_neg (by omega)]
          exact decide_eq_true (by omega)
      · have h1' : b.product.totalStock < a.product.totalStock :=
          of_decide_eq_true (by rwa [if_neg hsab] at h1)
        by_cases hsbc : b.product.totalStock = c.product.totalStock
        · rw [if_neg (by omega)]
          exact decide_eq_true (by omega)
        · have h2' : c.product.totalStock < b.product.totalStock :=
            of_decide_eq_true (by rwa [if_neg hsbc] at h2)
          rw [if_neg (by omega)]
          exact decide_eq_true (by omega)
    · have h2' : b.distance < c.distance :=
        of_decide_eq_true (by rwa [if_neg hdbc] at h2)
      have hlt : a.distance < c.distance := hdab ▸ h2'
      rw [if_neg (ne_of_lt hlt)]
      exact decide_eq_true hlt
  · have h1' : a.distance < b.distance :=
      of_decide_eq_true (by rwa [if_neg hdab] at h1)
    by_cases hdbc : b.distance = c.distance
    · have hlt : a.distance < c.distance := hdbc ▸ h1'
      rw [if_neg (ne_of_lt hlt)]
      exact decide_eq_true hlt
    · have h2' : b.distance < c.distance :=
        of_decide_eq_true (by rwa [if_neg hdbc] at h2)
      have hlt := lt_trans h1' h2'
      rw [if_neg (ne_of_lt hlt)]
      exact decide_eq_true hlt

/-- The ordering claimed for adjacent results: distance ascending, ties by
`totalStock` descending, remaining ties by name ascending. -/
def resultOrder (a b : RankedProduct) : Prop :=
  a.distance ≤ b.distance
  ∧ (a.distance = b.distance → b.product.totalStock ≤ a.product.totalStock)
  ∧ (a.distance = b.distance → a.product.totalStock = b.product.totalStock →
      lexLE a.product.name.data b.product.name.data = true)

/-- A comparator-ordered pair satisfies the claimed adjacent-result order. -/
theorem searchLE_imp_resultOrder {a b : RankedProduct}
    (h : searchLE a b = true) : resultOrder a b := by
  unfold searchLE at h
  by_cases hd : a.distance = b.distance
  · rw [if_pos hd] at h
    refine ⟨le_of_eq hd, fun _ => ?_, fun _ hs => ?_⟩
    · by_cases hs : a.product.totalStock = b.product.totalStock
      · exact le_of_eq hs.symm
      · have hlt : b.product.totalStock < a.product.totalStock :=
          of_decide_eq_true (by rwa [if_neg hs] at h)
        exact hlt.le
    · rwa [if_pos hs] at h
  · rw [if_neg hd] at h
    have hlt := of_decide_eq_true h
    exact ⟨hlt.le, fun he => absurd he hd, fun he _ => absurd he hd⟩

/-- Claim C6: the result list is sorted by distance ascending, ties broken
by `totalStock` descending, then by name ascending — every adjacent pair of
ranked results satisfies `resultOrder` — and the returned list is truncated
to at most `limit` entries. -/
theorem claim_C6_ordering (db : List DbProduct) (sp : SearchParams) :
    (searchRanked db sp).Chain' resultOrder
    ∧ (searchProducts db sp).length ≤ jsTrunc sp.limit := by
  constructor
  · unfold searchRanked
    have hp := List.sorted_mergeSort searchLE_trans searchLE_total
      ((dbFindMany db sp.query sp.category (jsTrunc (sp.limit * 2))).filterMap
        (searchStep (resolvedLat sp) (resolvedLng sp) sp.radius sp.inStock))
    exact ((hp.sublist (List.take_sublist _ _)).imp
      (fun h => searchLE_imp_resultOrder h)).chain'
  · unfold searchProducts
    rw [List.length_map]
    unfold searchRanked
    exact List.length_take_le _ _

/-- The haversine distance from a point to itself is exactly zero. -/
theorem calculateDistance_self (x y : ℝ) : calculateDistance x y x y = 0 := by
  have hA : haversineA x y x y = 0 := by
    unfold haversineA toRadians
    simp [sub_self]
  unfold calculateDistance
  rw [hA]
  norm_num [jsAtan2, Real.sqrt_one, Real.arctan_zero]

/-- Exact haversine distance along a meridian: moving `Δ ∈ [0, 90]` degrees
of latitude at a fixed longitude gives `6371 · toRadians Δ` km. -/
theorem calculateDistance_meridian (lat L Δ : ℝ) (h0 : 0 ≤ Δ) (h90 : Δ ≤ 90) :
    calculateDistance lat L (lat + Δ) L = 6371 * toRadians Δ := by
  have hπ := Real.pi_pos
  have hθ0 : 0 ≤ Δ * (Real.pi / 180) / 2 := by
    have := mul_nonneg h0 (by positivity : (0:ℝ) ≤ Real.pi / 180)
    linarith
  have hθlt : Δ * (Real.pi / 180) / 2 < Real.pi / 2 := by
    nlinarith [mul_nonneg (by linarith : (0:ℝ) ≤ 90 - Δ) hπ.le]
  have hsin : 0 ≤ Real.sin (Δ * (Real.pi / 180) / 2) :=
    Real.sin_nonneg_of_nonneg_of_le_pi hθ0 (by linarith)
  have hcos : 0 < Real.cos (Δ * (Real.pi / 180) / 2) :=
    Real.cos_pos_of_mem_Ioo ⟨by linarith, hθlt⟩
  have hA : haversineA lat L (lat + Δ) L
      = Real.sin (Δ * (Real.pi / 180) / 2) * Real.sin (Δ * (Real.pi / 180) / 2) := by
    unfold haversineA toRadians
    have h1 : lat + Δ - lat = Δ := by ring
    have h2 : L - L = 0 := sub_self L
    rw [h1, h2]
    norm_num
  unfold calculateDistance
  rw [hA, Real.sqrt_mul_self hsin]
  have h1 : 1 - Real.sin (Δ * (Real.pi / 180) / 2) * Real.sin (Δ * (Real.pi / 180) / 2)
      = Real.cos (Δ * (Real.pi / 180) / 2) * Real.cos (Δ * (Real.pi / 180) / 2) := by
    have hpyth := Real.sin_sq_add_cos_sq (Δ * (Real.pi / 180) / 2)
    nlinarith [hpyth]
  rw [h1, Real.sqrt_mul_self hcos.le]
  unfold jsAtan2
  rw [if_pos hcos, ← Real.tan_eq_sin_div_cos,
    Real.arctan_tan (by linarith) hθlt]
  unfold toRadians
  ring

/-- A merchant located exactly at the query coordinate, for the C8
counterexample. -/
def merchSelf : DbMerchant := ⟨"m2", "Corner Store", 10, 20, true⟩

/-- A product of `merchSelf`, for the C8 counterexample. -/
def prodSelf : DbProduct :=
  ⟨"p2", "Jacket", none, none, none, none, true, merchSelf, []⟩

/-- Claim C8 (counterexample): a coordinate **is** supplied — it coincides
with the merchant's — yet the response omits `distance`: the computed value
is exactly `0`, which is falsy, so `distance ? … : undefined` drops it. -/
theorem claim_C8_counterexample :
    detailGET [prodSelf] "p2" (some 10) (some 20)
      = .found (detailTransform (some 10) (some 20) prodSelf)
    ∧ (detailTransform (some 10) (some 20) prodSelf).merchant.distance = none := by
  constructor
  · rfl
  · simp [detailTransform, prodSelf, merchSelf, calculateDistance_self]

/-- Claim C8 (amended): when the product resolves and a query coordinate is
supplied, the response carries the distance from that coordinate to the
owning merchant's coordinate, rounded exactly as in the search path — except
that a computed distance of exactly `0` is dropped (see the counterexample);
with no coordinate supplied, the field is omitted. -/
theorem claim_C8_amended (db : List DbProduct) (pid : String) (la ln : ℚ)
    (p : DbProduct) (hfind : db.find? (fun q => q.id == pid) = some p)
    (hne : calculateDistance la ln p.merchant.latitude p.merchant.longitude ≠ 0) :
    detailGET db pid (some la) (some ln) = .found (detailTransform (some la) (some ln) p)
    ∧ (detailTransform (some la) (some ln) p).merchant.distance
      = some (jsRoundTo1 (calculateDistance la ln p.merchant.latitude p.merchant.longitude))
    ∧ (detailTransform none none p).merchant.distance = none := by
  refine ⟨by simp [detailGET, hfind], ?_, by simp [detailTransform]⟩
  simp only [detailTransform]
  rw [if_neg hne]

/-- A merchant one degree of latitude north of the query point, for the C8
witness (the distance is provably nonzero). -/
def merchMeridian : DbMerchant := ⟨"m3", "North Store", 1, 153, true⟩

/-- A product of `merchMeridian`, for the C8 witness. -/
def prodMeridian : DbProduct :=
  ⟨"p3", "Sneakers", none, none, none, none, true, merchMeridian, []⟩

/-- Witness for claim C8's amended theorem at a concrete catalog and query
coordinate whose computed distance is nonzero. -/
theorem claim_C8_witness :
    detailGET [prodMeridian] "p3" (some 0) (some 153)
      = .found (detailTransform (some 0) (some 153) prodMeridian)
    ∧ (detailTransform (some 0) (some 153) prodMeridian).merchant.distance
      = some (jsRoundTo1 (calculateDistance (0:ℚ) (153:ℚ)
          prodMeridian.merchant.latitude prodMeridian.merchant.longitude))
    ∧ (detailTransform none none prodMeridian).merchant.distance = none := by
  have hne : calculateDistance ((0:ℚ):ℝ) ((153:ℚ):ℝ)
      (prodMeridian.merchant.latitude : ℝ) (prodMeridian.merchant.longitude : ℝ) ≠ 0 := by
    have hc : (prodMeridian.merchant.latitude : ℝ) = 1 := by
      simp [prodMeridian, merchMeridian]
    have hc2 : (prodMeridian.merchant.longitude : ℝ) = 153 := by
      simp [prodMeridian, merchMeridian]
    rw [hc, hc2]
    have h01 : ((0:ℚ):ℝ) = 0 := by norm_num
    have h153 : ((153:ℚ):ℝ) = 153 := by norm_num
    rw [h01, h153]
    have hm : calculateDistance 0 153 ((0:ℝ) + 1) 153 = 6371 * toRadians 1 :=
      calculateDistance_meridian 0 153 1 (by norm_num) (by norm_num)
    rw [show ((0:ℝ) + 1) = 1 by norm_num] at hm
    rw [hm]
    unfold toRadians
    have := Real.pi_pos
    positivity
  exact claim_C8_amended [prodMeridian] "p3" 0 153 prodMeridian (by decide) hne

/-- A merchant 0.04546° of latitude (≈ 5.0549 km) from the query point, for
the C4 counterexample. -/
def merchNear : DbMerchant := ⟨"m4", "Edge Shop", 0.04546, 153, true⟩

/-- An in-stock variation, for the C4 counterexample. -/
def varNear : DbVariation := ⟨"v4", "Standard", 10, [], [⟨5, "2024-01-01"⟩]⟩

/-- A matching in-stock product of `merchNear`, for the C4 counterexample. -/
def prodNear : DbProduct :=
  ⟨"p4", "hoodie", none, none, none, none, true, merchNear, [varNear]⟩

/-- Validated parameters with radius 5.06 km, querying from `(0, 153)`. -/
def spEdge : SearchParams :=
  { query := "hoodie", lat := some 0, lng := some 153, radius := 5.06,
    limit := 20, category := some "", inStock := true }

/-- Claim C4 (counterexample): with radius 5.06 km and a merchant at true
distance `6371·toRadians(0.04546) ≈ 5.0549` km, the product passes the
(unrounded) radius filter but its **reported** distance rounds up to
`5.1 > 5.06` — the reported rounded distance exceeds the requested radius. -/
theorem claim_C4_counterexample :
    (searchProducts [prodNear] spEdge).map (fun p => p.merchant.distance)
      = [some ((51:ℝ) / 10)]
    ∧ ((spEdge.radius : ℝ) < (51:ℝ) / 10) := by
  have hπl := Real.pi_gt_d6
  have hπu := Real.pi_lt_d6
  have hlo : (50.5:ℝ) ≤ 10 * (6371 * toRadians 0.04546) := by
    unfold toRadians
    nlinarith
  have hhi : 10 * (6371 * toRadians 0.04546) ≤ 50.6 := by
    unfold toRadians
    nlinarith
  have hmer : calculateDistance (0:ℝ) 153 0.04546 153 = 6371 * toRadians 0.04546 := by
    have h := calculateDistance_meridian 0 153 0.04546 (by norm_num) (by norm_num)
    rwa [show ((0:ℝ) + 0.04546) = 0.04546 by norm_num] at h
  have hd : calculateDistance ((0:ℚ):ℝ) ((153:ℚ):ℝ) ((0.04546:ℚ):ℝ) ((153:ℚ):ℝ)
      = 6371 * toRadians 0.04546 := by
    have c1 : ((0:ℚ):ℝ) = 0 := by norm_num
    have c2 : ((153:ℚ):ℝ) = 153 := by norm_num
    have c3 : ((0.04546:ℚ):ℝ) = 0.04546 := by push_cast; ring
    rw [c1, c2, c3, hmer]
  have hrc : ((5.06:ℚ):ℝ) = (5.06:ℝ) := by push_cast; ring
  have hstepEq : searchStep (resolvedLat spEdge) (resolvedLng spEdge) spEdge.radius
      spEdge.inStock prodNear
      = some ⟨transformProduct prodNear (6371 * toRadians 0.04546) 5,
              6371 * toRadians 0.04546⟩ := by
    rw [show resolvedLat spEdge = 0 from rfl, show resolvedLng spEdge = 153 from rfl,
      show spEdge.radius = (5.06:ℚ) from rfl, show spEdge.inStock = true from rfl]
    unfold searchStep
    rw [show prodNear.merchant.latitude = (0.04546:ℚ) from rfl,
      show prodNear.merchant.longitude = (153:ℚ) from rfl, hd]
    rw [if_neg (by rw [hrc]; exact not_lt.mpr (by linarith))]
    rw [show dbTotalStock prodNear = 5 from by decide]
    rw [if_neg (by decide)]
  have hT2 : jsTrunc (spEdge.limit * 2) = 40 := by
    show jsTrunc ((20:ℚ) * 2) = 40
    unfold jsTrunc
    rw [show ((20:ℚ) * 2) = 40 from by norm_num, show ⌊(40:ℚ)⌋ = 40 from by norm_num]
    rfl
  have hT1 : jsTrunc spEdge.limit = 20 := by
    show jsTrunc (20:ℚ) = 20
    unfold jsTrunc
    rw [show ⌊(20:ℚ)⌋ = 20 from by norm_num]
    rfl
  have hfindEq : dbFindMany [prodNear] spEdge.query spEdge.category
      (jsTrunc (spEdge.limit * 2)) = [prodNear] := by
    rw [show spEdge.query = "hoodie" from rfl, show spEdge.category = some "" from rfl, hT2]
    unfold dbFindMany
    rw [show List.filter (whereMatch "hoodie" (some "")) [prodNear] = [prodNear] from by
      simp only [List.filter_cons, List.filter_nil,
        show whereMatch "hoodie" (some "") prodNear = true from by decide, if_true]]
    exact List.take_of_length_le (by norm_num)
  have hround : jsRound ((6371 * toRadians 0.04546) * 10) = 51 := by
    unfold jsRound
    rw [Int.floor_eq_iff]
    constructor
    · push_cast
      linarith
    · push_cast
      linarith
  have hr1 : jsRoundTo1 (6371 * toRadians 0.04546) = (51:ℝ)/10 := by
    unfold jsRoundTo1
    rw [hround]
    norm_num
  constructor
  · unfold searchProducts searchRanked
    rw [hfindEq]
    rw [show List.filterMap (searchStep (resolvedLat spEdge) (resolvedLng spEdge)
        spEdge.radius spEdge.inStock) [prodNear]
        = [⟨transformProduct prodNear (6371 * toRadians 0.04546) 5,
            6371 * toRadians 0.04546⟩] from by
      simp only [List.filterMap_cons, List.filterMap_nil, hstepEq]]
    rw [List.mergeSort_singleton, hT1]
    rw [List.take_of_length_le (by norm_num)]
    simp only [List.map_cons, List.map_nil]
    rw [show (transformProduct prodNear (6371 * toRadians 0.04546) 5).merchant.distance
        = some (jsRoundTo1 (6371 * toRadians 0.04546)) from rfl]
    rw [hr1]
  · rw [show spEdge.radius = (5.06:ℚ) from rfl, hrc]
    norm_num

end Squareapp
